import Mathlib

/-!
Shallow embedding of `bolt-pm` (src/src/main.cpp), a package-manager CLI
operating on one TOML manifest file (`bolt.toml`) and spawning an external
compiler (`bolt-compiler`).

Modelling choices:
* A TOML document is an association list of string keys to values
  (`Toml.Value`); the external toml++ library is abstracted: a file on disk
  either holds a serialized document (`FileData.toml`, parsing returns it
  back), plain text (`FileData.text`, as written for the entrypoint stub),
  or bytes that are not valid TOML (`FileData.badToml`).
* The filesystem is an association list from file names to `FileData`;
  `std::ofstream` truncation-write is `FS.write` (replace or append).
* A process `World` carries the filesystem and the stdout/stderr lines
  printed so far.  `std::system` is a parameter `sys : String → Int`
  mapping the command string to the spawned process exit status.
* `main` takes `argv[1..]` (so `argc < 2` is the empty list) and returns
  the resulting world and the process exit status; `none` marks undefined
  behaviour (the C++ dereferences a null `as_table()` result when a
  pre-existing `dependencies` entry is not a table).
-/

namespace BoltPM

/-- TOML values as used by the program: strings and tables. -/
inductive Value : Type where
  | str (s : String) : Value
  | table (entries : List (String × Value)) : Value

/-- A TOML table: an association list of keys to values. -/
abbrev Table := List (String × Value)

namespace Table

/-- Key lookup in a table (first matching entry). -/
def find : Table → String → Option Value
  | [], _ => none
  | (k, v) :: rest, key => if k = key then some v else find rest key

/-- `toml::table::contains`. -/
def contains (t : Table) (k : String) : Bool :=
  (find t k).isSome

/-- `toml::table::insert_or_assign`: replace the entry in place if the key
is present, otherwise append it. -/
def insertOrAssign : Table → String → Value → Table
  | [], k, v => [(k, v)]
  | (k1, v1) :: rest, k, v =>
      if k1 = k then (k, v) :: rest else (k1, v1) :: insertOrAssign rest k v

/-- The list of keys of a table. -/
def keys (t : Table) : List String := t.map Prod.fst

/-- How many entries of the table carry the given key. -/
def keyCount : Table → String → Nat
  | [], _ => 0
  | (k1, _) :: rest, k => (if k1 = k then 1 else 0) + keyCount rest k

/-- Key uniqueness, as an executable predicate (holds of every table a real
TOML parse can produce). -/
def nodupKeys : Table → Bool
  | [] => true
  | (k, _) :: rest => !(contains rest k) && nodupKeys rest

end Table

/-- `toml::node::as_table`. -/
def Value.asTable : Value → Option Table
  | Value.table t => some t
  | _ => none

/-- Contents of a file on disk in the model. -/
inductive FileData : Type where
  | toml (doc : Table) : FileData
  | text (s : String) : FileData
  | badToml : FileData

/-- The filesystem: file names mapped to contents. -/
abbrev FS := List (String × FileData)

namespace FS

/-- Look a file up by name. -/
def lookupFile : FS → String → Option FileData
  | [], _ => none
  | (n, d) :: rest, name => if n = name then some d else lookupFile rest name

/-- `fs::exists`. -/
def existsFile (fs : FS) (name : String) : Bool :=
  (lookupFile fs name).isSome

/-- Truncating write (`std::ofstream`): replace the file if present,
create it otherwise. -/
def write : FS → String → FileData → FS
  | [], name, d => [(name, d)]
  | (n, d1) :: rest, name, d =>
      if n = name then (name, d) :: rest else (n, d1) :: write rest name d

end FS

/-- Process state: filesystem plus the lines printed to stdout and stderr. -/
structure World : Type where
  fs : FS
  out : List String
  err : List String

/-- `toml::parse_file`, abstracted over the stored `FileData`. -/
def parseFileData : FileData → Except Unit Table
  | FileData.toml d => Except.ok d
  | _ => Except.error ()

def MANIFEST_FILE : String := "bolt.toml"

def COMPILER_NAME : String := "bolt-compiler"

/-- `tbl[k1][k2].value_or(dflt)`: the string at a two-level path, with a
default when the path is missing or not a string. -/
def viewStr (t : Table) (k1 k2 dflt : String) : String :=
  match (Table.find t k1).bind Value.asTable with
  | none => dflt
  | some inner =>
      match Table.find inner k2 with
      | some (Value.str s) => s
      | _ => dflt

-- Printed messages (the toml++ error details appended after the parse-error
-- header are abstracted away; only the fixed header line is modelled).

def alreadyExistsMsg : String := "ℹ️ " ++ MANIFEST_FILE ++ " already exists."

def initializedMsg : String := "✨ Initialized new Bolt project in " ++ MANIFEST_FILE

def createdEntryMsg (e : String) : String := "✏️ Created entrypoint file: " ++ e

def noManifestInstallMsg : String :=
  "❌ No " ++ MANIFEST_FILE ++ " found. Run \x27bolt-pm new\x27 first."

def parseErrorMsg : String := "❌ Error parsing " ++ MANIFEST_FILE ++ ":"

def installedMsg (pkg : String) : String :=
  "✅ Added \x27" ++ pkg ++ " = \"1.0.0\"\x27 to " ++ MANIFEST_FILE ++ "."

def runBuildHint : String := "Run \x27bolt-pm build\x27 to compile."

def noManifestBuildMsg : String := "❌ No " ++ MANIFEST_FILE ++ " found. Cannot build."

def buildingMsg (outName entry : String) : String :=
  "Building project \x27" ++ outName ++ "\x27 from " ++ entry ++ "..."

def cmdMsg (cmd : String) : String := "Compiler command: " ++ cmd

def buildSuccessMsg (outName : String) : String :=
  "✅ Build successful! (Output: " ++ outName ++ ")"

def buildFailMsg : String :=
  "❌ Build Failed. Make sure \x27" ++ COMPILER_NAME ++ "\x27 is in your PATH."

def installNeedsNameMsg : String := "❌ Error: \x27install\x27 requires a package name."

def unknownCmdMsg (c : String) : String := "❌ Unknown command: " ++ c

def helpLines : List String :=
  ["Bolt Package Manager (bolt-pm)", "",
   "Usage: bolt-pm <command>", "",
   "Commands:",
   "  new          Initializes a new project by creating bolt.toml",
   "  install <pkg>  Adds a package to dependencies",
   "  build        Compiles the project",
   "  help         Show this help message"]

/-- The default document written by `new`. -/
def defaultManifest : Table :=
  [("package", Value.table
      [("name", Value.str "new-bolt-project"),
       ("version", Value.str "0.1.0"),
       ("entrypoint", Value.str "main.bolt")]),
   ("dependencies", Value.table [])]

/-- Fixed placeholder content of the entrypoint stub. -/
def entryStub (entrypoint : String) : String :=
  "// Main entrypoint: " ++ entrypoint ++ "\n\nint main() \x7b\n    \n    return 0;\n\x7d\n"

/-- `initialize_manifest`: create `bolt.toml` (and the entrypoint stub when
absent); an informational no-op when the manifest already exists. -/
def initialize_manifest (w : World) : World :=
  if FS.existsFile w.fs MANIFEST_FILE then
    { w with out := w.out ++ [alreadyExistsMsg] }
  else
    let w1 : World :=
      { w with fs := FS.write w.fs MANIFEST_FILE (FileData.toml defaultManifest),
               out := w.out ++ [initializedMsg] }
    let entrypoint := "main.bolt"
    if FS.existsFile w1.fs entrypoint then w1
    else
      { w1 with fs := FS.write w1.fs entrypoint (FileData.text (entryStub entrypoint)),
                out := w1.out ++ [createdEntryMsg entrypoint] }

/-- The table transformation performed by `install_package` on a parsed
manifest: materialize `dependencies` if absent, then
`insert_or_assign pkg "1.0.0"`.  `none` is the null-pointer dereference the
C++ performs when a pre-existing `dependencies` entry is not a table. -/
def installTable (tbl : Table) (pkg : String) : Option Table :=
  let tbl1 := if Table.contains tbl "dependencies" then tbl
              else tbl ++ [("dependencies", Value.table [])]
  match (Table.find tbl1 "dependencies").bind Value.asTable with
  | none => none
  | some deps =>
      some (Table.insertOrAssign tbl1 "dependencies"
              (Value.table (Table.insertOrAssign deps pkg (Value.str "1.0.0"))))

/-- `install_package`: add a dependency to `bolt.toml`. -/
def install_package (pkg : String) (w : World) : Option World :=
  match FS.lookupFile w.fs MANIFEST_FILE with
  | none => some { w with err := w.err ++ [noManifestInstallMsg] }
  | some fd =>
      match parseFileData fd with
      | Except.error _ => some { w with err := w.err ++ [parseErrorMsg] }
      | Except.ok tbl =>
          match installTable tbl pkg with
          | none => none
          | some tbl2 =>
              some { w with
                       fs := FS.write w.fs MANIFEST_FILE (FileData.toml tbl2),
                       out := w.out ++ [installedMsg pkg, runBuildHint] }

/-- `tbl["package"]["entrypoint"].value_or("main.bolt")`. -/
def entrypointOf (tbl : Table) : String := viewStr tbl "package" "entrypoint" "main.bolt"

/-- `tbl["package"]["name"].value_or("my-app")`. -/
def outputNameOf (tbl : Table) : String := viewStr tbl "package" "name" "my-app"

/-- The dependency-flags string: one `" -l<key>"` per key of the
`dependencies` table (empty when that entry is absent or not a table). -/
def depFlagsOf (tbl : Table) : String :=
  match (Table.find tbl "dependencies").bind Value.asTable with
  | some deps => deps.foldl (fun acc kv => acc ++ " -l" ++ kv.1) ""
  | none => ""

/-- The compiler command string constructed by `build_project`. -/
def buildCmdOf (tbl : Table) : String :=
  COMPILER_NAME ++ " " ++ entrypointOf tbl ++ " -o " ++ outputNameOf tbl ++ depFlagsOf tbl

/-- `build_project`: read the manifest and invoke the external compiler. -/
def build_project (sys : String → Int) (w : World) : World :=
  match FS.lookupFile w.fs MANIFEST_FILE with
  | none => { w with err := w.err ++ [noManifestBuildMsg] }
  | some fd =>
      match parseFileData fd with
      | Except.error _ => { w with err := w.err ++ [parseErrorMsg] }
      | Except.ok tbl =>
          let cmd := buildCmdOf tbl
          let ret := sys cmd
          let w1 : World :=
            { w with out := w.out ++ [buildingMsg (outputNameOf tbl) (entrypointOf tbl),
                                      cmdMsg cmd] }
          if ret = 0 then { w1 with out := w1.out ++ [buildSuccessMsg (outputNameOf tbl)] }
          else { w1 with err := w1.err ++ [buildFailMsg] }

/-- `main`: dispatch on `argv[1..]`; returns the final world and process
exit status (`none` when `install_package` hits undefined behaviour). -/
def main (args : List String) (sys : String → Int) (w : World) : Option (World × Nat) :=
  match args with
  | [] => some ({ w with out := w.out ++ helpLines }, 1)
  | "new" :: _ => some (initialize_manifest w, 0)
  | "install" :: [] => some ({ w with err := w.err ++ [installNeedsNameMsg] }, 1)
  | "install" :: pkg :: _ => (install_package pkg w).map (fun w1 => (w1, 0))
  | "build" :: _ => some (build_project sys w, 0)
  | "help" :: _ => some ({ w with out := w.out ++ helpLines }, 0)
  | c :: _ => some ({ w with err := w.err ++ [unknownCmdMsg c],
                             out := w.out ++ helpLines }, 1)

/-! ### Helper lemmas -/

theorem Table.find_insertOrAssign (t : Table) (k a : String) (v : Value) :
    Table.find (Table.insertOrAssign t k v) a = if a = k then some v else Table.find t a := by
  induction t with
  | nil =>
      by_cases h : a = k
      · subst h
        simp [Table.insertOrAssign, Table.find]
      · have h1 : ¬k = a := fun h2 => h h2.symm
        simp [Table.insertOrAssign, Table.find, h, h1]
  | cons kv rest ih =>
      obtain ⟨k1, v1⟩ := kv
      by_cases hk : k1 = k
      · subst hk
        by_cases h : a = k1
        · subst h
          simp [Table.insertOrAssign, Table.find]
        · have h1 : ¬k1 = a := fun h2 => h h2.symm
          simp [Table.insertOrAssign, Table.find, h, h1]
      · by_cases h : k1 = a
        · subst h
          simp [Table.insertOrAssign, Table.find, hk]
        · simp [Table.insertOrAssign, Table.find, hk, h, ih]

theorem Table.find_append_single (t : Table) (k : String) (v : Value)
    (h : Table.find t k = none) : Table.find (t ++ [(k, v)]) k = some v := by
  induction t with
  | nil => simp [Table.find]
  | cons kv rest ih =>
      obtain ⟨k1, v1⟩ := kv
      by_cases h1 : k1 = k
      · simp [Table.find, h1] at h
      · simp [Table.find, h1] at h ⊢
        exact ih h

theorem Table.keyCount_eq_zero (t : Table) (k : String)
    (h : Table.find t k = none) : Table.keyCount t k = 0 := by
  induction t with
  | nil => rfl
  | cons kv rest ih =>
      obtain ⟨k1, v1⟩ := kv
      by_cases h1 : k1 = k
      · simp [Table.find, h1] at h
      · simp [Table.find, h1] at h
        simp [Table.keyCount, h1, ih h]

theorem Table.keyCount_insertOrAssign (t : Table) (k : String) (v : Value)
    (h : Table.nodupKeys t = true) :
    Table.keyCount (Table.insertOrAssign t k v) k = 1 := by
  induction t with
  | nil => simp [Table.insertOrAssign, Table.keyCount]
  | cons kv rest ih =>
      obtain ⟨k1, v1⟩ := kv
      simp [Table.nodupKeys, Table.contains] at h
      by_cases h1 : k1 = k
      · subst h1
        have h0 : Table.find rest k1 = none := by
          cases hf : Table.find rest k1 with
          | none => rfl
          | some x => simp [hf] at h
        simp [Table.insertOrAssign, Table.keyCount, Table.keyCount_eq_zero rest k1 h0]
      · simp [Table.insertOrAssign, Table.keyCount, h1, ih h.2]

theorem Table.nodupKeys_insertOrAssign (t : Table) (k : String) (v : Value)
    (h : Table.nodupKeys t = true) :
    Table.nodupKeys (Table.insertOrAssign t k v) = true := by
  induction t with
  | nil => simp [Table.insertOrAssign, Table.nodupKeys, Table.contains, Table.find]
  | cons kv rest ih =>
      obtain ⟨k1, v1⟩ := kv
      simp [Table.nodupKeys, Table.contains] at h
      by_cases h1 : k1 = k
      · subst h1
        simp [Table.insertOrAssign, Table.nodupKeys, Table.contains, h.1, h.2]
      · have hfind : Table.find (Table.insertOrAssign rest k v) k1 = Table.find rest k1 := by
          rw [Table.find_insertOrAssign]
          simp [fun h2 : k1 = k => h1 h2]
        simp [Table.insertOrAssign, Table.nodupKeys, Table.contains, h1, hfind, h.1, ih h.2]

theorem FS.lookupFile_write_self (fs : FS) (n : String) (d : FileData) :
    FS.lookupFile (FS.write fs n d) n = some d := by
  induction fs with
  | nil => simp [FS.write, FS.lookupFile]
  | cons nd rest ih =>
      obtain ⟨n1, d1⟩ := nd
      by_cases h : n1 = n
      · simp [FS.write, FS.lookupFile, h]
      · simp [FS.write, FS.lookupFile, h, ih]

theorem FS.lookupFile_write_ne (fs : FS) (n m : String) (d : FileData)
    (h : n ≠ m) : FS.lookupFile (FS.write fs n d) m = FS.lookupFile fs m := by
  induction fs with
  | nil => simp [FS.write, FS.lookupFile, fun h2 : n = m => h h2]
  | cons nd rest ih =>
      obtain ⟨n1, d1⟩ := nd
      by_cases h1 : n1 = n
      · subst h1
        simp [FS.write, FS.lookupFile, fun h2 : n1 = m => h h2]
      · simp [FS.write, FS.lookupFile, h1, ih]

/-- Concatenation of a list of strings. -/
def strJoin : List String → String
  | [] => ""
  | s :: r => s ++ strJoin r

theorem foldl_depFlags (l : List (String × Value)) (acc : String) :
    l.foldl (fun acc kv => acc ++ " -l" ++ kv.1) acc
      = acc ++ strJoin (l.map (fun kv => " -l" ++ kv.1)) := by
  induction l generalizing acc with
  | nil => simp [strJoin, String.append_empty]
  | cons kv rest ih =>
      simp only [List.foldl_cons, List.map_cons, strJoin]
      rw [ih]
      simp [String.append_assoc]

theorem str_append_left_cancel (s a b : String) (h : s ++ a = s ++ b) : a = b := by
  have h2 := congrArg String.data h
  simp [String.data_append] at h2
  exact String.ext h2

/-- The behaviour of `installTable` on any parseable manifest whose
`dependencies` entry, when present, is a table with unique keys. -/
theorem installTable_spec (tbl : Table) (pkg : String)
    (hd : Table.find tbl "dependencies" = none ∨
          ∃ dl, Table.find tbl "dependencies" = some (Value.table dl) ∧
                Table.nodupKeys dl = true) :
    ∃ tbl2 deps2, installTable tbl pkg = some tbl2
      ∧ Table.find tbl2 "dependencies" = some (Value.table deps2)
      ∧ Table.find deps2 pkg = some (Value.str "1.0.0")
      ∧ Table.nodupKeys deps2 = true
      ∧ Table.keyCount deps2 pkg = 1 := by
  rcases hd with hnone | ⟨dl, hdl, hnodup⟩
  · have hc : Table.contains tbl "dependencies" = false := by
      simp [Table.contains, hnone]
    have hfind : Table.find (tbl ++ [("dependencies", Value.table [])]) "dependencies"
        = some (Value.table []) := Table.find_append_single tbl _ _ hnone
    refine ⟨Table.insertOrAssign (tbl ++ [("dependencies", Value.table [])]) "dependencies"
              (Value.table [(pkg, Value.str "1.0.0")]),
            [(pkg, Value.str "1.0.0")], ?_, ?_, ?_, ?_, ?_⟩
    · simp [installTable, hc, hfind, Value.asTable, Table.insertOrAssign]
    · rw [Table.find_insertOrAssign]
      simp
    · simp [Table.find]
    · simp [Table.nodupKeys, Table.contains, Table.find]
    · simp [Table.keyCount]
  · have hc : Table.contains tbl "dependencies" = true := by
      simp [Table.contains, hdl]
    refine ⟨Table.insertOrAssign tbl "dependencies"
              (Value.table (Table.insertOrAssign dl pkg (Value.str "1.0.0"))),
            Table.insertOrAssign dl pkg (Value.str "1.0.0"), ?_, ?_, ?_, ?_, ?_⟩
    · simp [installTable, hc, hdl, Value.asTable]
    · rw [Table.find_insertOrAssign]
      simp
    · rw [Table.find_insertOrAssign]
      simp
    · exact Table.nodupKeys_insertOrAssign dl pkg _ hnodup
    · exact Table.keyCount_insertOrAssign dl pkg _ hnodup

/-- What `install_package` does once the manifest parses and the table
transformation succeeds. -/
theorem install_package_toml (w : World) (doc tbl2 : Table) (pkg : String)
    (h : FS.lookupFile w.fs MANIFEST_FILE = some (FileData.toml doc))
    (hit : installTable doc pkg = some tbl2) :
    install_package pkg w
      = some { w with fs := FS.write w.fs MANIFEST_FILE (FileData.toml tbl2),
                      out := w.out ++ [installedMsg pkg, runBuildHint] } := by
  simp [install_package, h, parseFileData, hit]

/-! ### Sample states used by witnesses and counterexamples -/

/-- Empty process state: no files, nothing printed. -/
def wEmpty : World := ⟨[], [], []⟩

/-- A state whose manifest is exactly the document written by `new`. -/
def wDefault : World := ⟨[(MANIFEST_FILE, FileData.toml defaultManifest)], [], []⟩

/-- A state whose manifest file exists but is not valid TOML. -/
def wBad : World := ⟨[(MANIFEST_FILE, FileData.badToml)], [], []⟩

/-- The spec example: a manifest declaring dependencies `fmt` and `zlib`. -/
def depsEx : Table := [("fmt", Value.str "1.0.0"), ("zlib", Value.str "1.0.0")]

/-- A parsed manifest with package info and the `depsEx` dependencies. -/
def docEx : Table :=
  [("package", Value.table
      [("name", Value.str "demo"), ("entrypoint", Value.str "app.bolt")]),
   ("dependencies", Value.table depsEx)]

/-- A state whose manifest is `docEx`. -/
def wEx : World := ⟨[(MANIFEST_FILE, FileData.toml docEx)], [], []⟩

/-! ### Claim theorems -/

/-- Claim C2, counterexample: with no manifest present, `install foo` exits
with status 0, not the non-zero status (1) the claim states; the C++
`install_package` prints the error and returns, and `main` then returns 0. -/
theorem install_missing_manifest_cex :
    main ["install", "foo"] (fun _ => 0) wEmpty
      = some ({ wEmpty with err := [noManifestInstallMsg] }, 0) := rfl

/-- Claim C2, amended: `install <pkg>` with no manifest present prints the
error to stderr and writes no file (the state is unchanged apart from the
message), but the process exits with status 0, not non-zero. -/
theorem install_missing_manifest (w : World) (sys : String → Int) (pkg : String)
    (h : FS.lookupFile w.fs MANIFEST_FILE = none) :
    main ["install", pkg] sys w
      = some ({ w with err := w.err ++ [noManifestInstallMsg] }, 0) := by
  simp [main, install_package, h]

/-- Witness for the amended C2 at a concrete state. -/
theorem install_missing_manifest_witness :
    main ["install", "bar"] (fun _ => 0) ⟨[("main.bolt", FileData.text "x")], [], []⟩
      = some ({ fs := [("main.bolt", FileData.text "x")], out := [],
                err := [noManifestInstallMsg] }, 0) :=
  install_missing_manifest ⟨[("main.bolt", FileData.text "x")], [], []⟩ (fun _ => 0) "bar" rfl

/-- Claim C3, counterexample: with an unparsable manifest, `install foo`
prints the parse error and leaves the file unwritten, but exits with
status 0, not the non-zero status the claim states. -/
theorem install_unparsable_cex :
    main ["install", "foo"] (fun _ => 0) wBad
      = some ({ wBad with err := [parseErrorMsg] }, 0) := rfl

/-- Claim C3, amended: `install <pkg>` on an existing manifest that is not
valid TOML fails with a parse-error message and does not write the manifest
(the filesystem is unchanged), but the process exit status is 0, not
non-zero. -/
theorem install_unparsable (w : World) (sys : String → Int) (pkg : String)
    (h : FS.lookupFile w.fs MANIFEST_FILE = some FileData.badToml) :
    main ["install", pkg] sys w
      = some ({ w with err := w.err ++ [parseErrorMsg] }, 0) := by
  simp [main, install_package, h, parseFileData]

/-- Witness for the amended C3 at a concrete state. -/
theorem install_unparsable_witness :
    main ["install", "baz"] (fun _ => 0) wBad
      = some ({ wBad with err := wBad.err ++ [parseErrorMsg] }, 0) :=
  install_unparsable wBad (fun _ => 0) "baz" rfl

/-- Claim C4: `install` with no package-name argument prints the error and
exits with status 1; the state (in particular the manifest file) is
untouched. -/
theorem install_missing_arg (w : World) (sys : String → Int) :
    main ["install"] sys w
      = some ({ w with err := w.err ++ [installNeedsNameMsg] }, 1) := rfl

/-- Claim C5: when the manifest file already exists, `new` performs no write
at all (the filesystem, hence the manifest file, is unchanged), prints the
informational notice, and exits with status 0. -/
theorem new_existing_manifest_noop (w : World) (sys : String → Int)
    (h : FS.existsFile w.fs MANIFEST_FILE = true) :
    main ["new"] sys w = some ({ w with out := w.out ++ [alreadyExistsMsg] }, 0) := by
  simp [main, initialize_manifest, h]

/-- Witness for C5 at a concrete state. -/
theorem new_existing_manifest_noop_witness :
    main ["new"] (fun _ => 0) wDefault
      = some ({ wDefault with out := wDefault.out ++ [alreadyExistsMsg] }, 0) :=
  new_existing_manifest_noop wDefault (fun _ => 0) rfl

/-- Claim C10: when the manifest file already exists, `new` returns right
after its notice with exit status 0 and creates no file; in particular the
entrypoint stub is not created even when `main.bolt` is absent. -/
theorem new_existing_no_stub (w : World) (sys : String → Int)
    (h1 : FS.existsFile w.fs MANIFEST_FILE = true)
    (h2 : FS.lookupFile w.fs "main.bolt" = none) :
    main ["new"] sys w = some ({ w with out := w.out ++ [alreadyExistsMsg] }, 0)
  ∧ (initialize_manifest w).fs = w.fs
  ∧ FS.lookupFile (initialize_manifest w).fs "main.bolt" = none := by
  refine ⟨?_, ?_, ?_⟩
  · simp [main, initialize_manifest, h1]
  · simp [initialize_manifest, h1]
  · simp [initialize_manifest, h1, h2]

/-- Witness for C10 at a concrete state (manifest present, stub absent). -/
theorem new_existing_no_stub_witness :
    main ["new"] (fun _ => 0) wDefault
        = some ({ wDefault with out := wDefault.out ++ [alreadyExistsMsg] }, 0)
  ∧ (initialize_manifest wDefault).fs = wDefault.fs
  ∧ FS.lookupFile (initialize_manifest wDefault).fs "main.bolt" = none :=
  new_existing_no_stub wDefault (fun _ => 0) rfl rfl

/-- Claim C1, counterexample: with a valid manifest and a compiler that
returns exit status 1, `build` still exits with process status 0, not the
non-zero status the claim states (the C++ `build_project` only prints the
failure message; `main` returns 0). -/
theorem build_compiler_failure_cex :
    main ["build"] (fun _ => 1) wDefault
      = some ({ wDefault with
                  out := [buildingMsg "new-bolt-project" "main.bolt",
                          cmdMsg "bolt-compiler main.bolt -o new-bolt-project"],
                  err := [buildFailMsg] }, 0) := rfl

/-- Claim C1, amended: every `build` invocation exits with process status 0,
whether the manifest is missing, unparsable, or the spawned compiler
returns non-zero; the outcome is reported only through messages: the
success message on stdout when the compiler returns 0, the failure message
on stderr when it returns non-zero, and the missing-manifest or parse-error
message on stderr in the two error cases. -/
theorem build_exit_and_messages (w : World) (sys : String → Int) :
    main ["build"] sys w = some (build_project sys w, 0)
  ∧ (∀ doc, FS.lookupFile w.fs MANIFEST_FILE = some (FileData.toml doc) →
        (sys (buildCmdOf doc) = 0 →
            buildSuccessMsg (outputNameOf doc) ∈ (build_project sys w).out)
      ∧ (sys (buildCmdOf doc) ≠ 0 → buildFailMsg ∈ (build_project sys w).err))
  ∧ (FS.lookupFile w.fs MANIFEST_FILE = none →
        noManifestBuildMsg ∈ (build_project sys w).err)
  ∧ (∀ fd, FS.lookupFile w.fs MANIFEST_FILE = some fd →
        parseFileData fd = Except.error () →
        parseErrorMsg ∈ (build_project sys w).err) := by
  refine ⟨rfl, ?_, ?_, ?_⟩
  · intro doc h
    constructor
    · intro hz
      simp [build_project, h, parseFileData, hz]
    · intro hnz
      simp [build_project, h, parseFileData, hnz]
  · intro h
    simp [build_project, h]
  · intro fd h hp
    simp [build_project, h, hp]

/-- Witness for the amended C1: concrete state, compiler returning 1. -/
theorem build_exit_and_messages_witness :
    main ["build"] (fun _ => 1) wDefault = some (build_project (fun _ => 1) wDefault, 0)
  ∧ buildFailMsg ∈ (build_project (fun _ => 1) wDefault).err :=
  ⟨(build_exit_and_messages wDefault (fun _ => 1)).1,
   ((build_exit_and_messages wDefault (fun _ => 1)).2.1 defaultManifest rfl).2 (by decide)⟩

/-- Claim C8: `new` in a state where neither the manifest nor the entrypoint
file exists writes the manifest holding exactly the default package fields
(name, version, entrypoint) and an empty dependencies table, creates the
entrypoint stub with the fixed placeholder content, and exits 0. -/
theorem new_fresh_project (w : World) (sys : String → Int)
    (h1 : FS.lookupFile w.fs MANIFEST_FILE = none)
    (h2 : FS.lookupFile w.fs "main.bolt" = none) :
    main ["new"] sys w = some (initialize_manifest w, 0)
  ∧ FS.lookupFile (initialize_manifest w).fs MANIFEST_FILE
      = some (FileData.toml
          [("package", Value.table
              [("name", Value.str "new-bolt-project"),
               ("version", Value.str "0.1.0"),
               ("entrypoint", Value.str "main.bolt")]),
           ("dependencies", Value.table [])])
  ∧ FS.lookupFile (initialize_manifest w).fs "main.bolt"
      = some (FileData.text
          "// Main entrypoint: main.bolt\n\nint main() \x7b\n    \n    return 0;\n\x7d\n")
  ∧ (initialize_manifest w).out = w.out ++ [initializedMsg, createdEntryMsg "main.bolt"] := by
  have he1 : FS.existsFile w.fs MANIFEST_FILE = false := by
    simp [FS.existsFile, h1]
  have he2 : FS.existsFile (FS.write w.fs MANIFEST_FILE (FileData.toml defaultManifest))
      "main.bolt" = false := by
    simp [FS.existsFile,
          FS.lookupFile_write_ne w.fs MANIFEST_FILE "main.bolt" _ (by decide), h2]
  refine ⟨rfl, ?_, ?_, ?_⟩
  · simp only [initialize_manifest, he1, Bool.false_eq_true, if_false, he2]
    rw [FS.lookupFile_write_ne _ "main.bolt" MANIFEST_FILE _ (by decide),
        FS.lookupFile_write_self]
    rfl
  · simp only [initialize_manifest, he1, Bool.false_eq_true, if_false, he2]
    rw [FS.lookupFile_write_self]
    rfl
  · simp [initialize_manifest, he1, he2]

/-- Witness for C8 at the empty state. -/
theorem new_fresh_project_witness :
    main ["new"] (fun _ => 0) wEmpty = some (initialize_manifest wEmpty, 0)
  ∧ FS.lookupFile (initialize_manifest wEmpty).fs MANIFEST_FILE
      = some (FileData.toml
          [("package", Value.table
              [("name", Value.str "new-bolt-project"),
               ("version", Value.str "0.1.0"),
               ("entrypoint", Value.str "main.bolt")]),
           ("dependencies", Value.table [])])
  ∧ FS.lookupFile (initialize_manifest wEmpty).fs "main.bolt"
      = some (FileData.text
          "// Main entrypoint: main.bolt\n\nint main() \x7b\n    \n    return 0;\n\x7d\n")
  ∧ (initialize_manifest wEmpty).out
      = wEmpty.out ++ [initializedMsg, createdEntryMsg "main.bolt"] :=
  new_fresh_project wEmpty (fun _ => 0) rfl rfl

/-- Claim C9: the document written by `new` is read back unchanged — after
`new`, the manifest holds exactly `defaultManifest`, parsing returns it
as written, `build` resolves entrypoint `main.bolt` and output name
`new-bolt-project` (command `bolt-compiler main.bolt -o new-bolt-project`),
the version string is still `0.1.0`, and a subsequent `install` parses the
same document and preserves the `package` table. -/
theorem new_roundtrip (w : World) (pkg : String)
    (h1 : FS.lookupFile w.fs MANIFEST_FILE = none) :
    FS.lookupFile (initialize_manifest w).fs MANIFEST_FILE
        = some (FileData.toml defaultManifest)
  ∧ parseFileData (FileData.toml defaultManifest) = Except.ok defaultManifest
  ∧ entrypointOf defaultManifest = "main.bolt"
  ∧ outputNameOf defaultManifest = "new-bolt-project"
  ∧ viewStr defaultManifest "package" "version" "" = "0.1.0"
  ∧ buildCmdOf defaultManifest = "bolt-compiler main.bolt -o new-bolt-project"
  ∧ ∃ w2, install_package pkg (initialize_manifest w) = some w2
      ∧ ∃ doc2, FS.lookupFile w2.fs MANIFEST_FILE = some (FileData.toml doc2)
        ∧ Table.find doc2 "package" = Table.find defaultManifest "package" := by
  have he1 : FS.existsFile w.fs MANIFEST_FILE = false := by
    simp [FS.existsFile, h1]
  have hm : FS.lookupFile (initialize_manifest w).fs MANIFEST_FILE
      = some (FileData.toml defaultManifest) := by
    simp only [initialize_manifest, he1, Bool.false_eq_true, if_false]
    by_cases hex : FS.existsFile (FS.write w.fs MANIFEST_FILE (FileData.toml defaultManifest))
        "main.bolt" = true
    · simp only [hex, if_true]
      exact FS.lookupFile_write_self w.fs MANIFEST_FILE _
    · simp only [Bool.not_eq_true] at hex
      simp only [hex, Bool.false_eq_true, if_false]
      rw [FS.lookupFile_write_ne _ "main.bolt" MANIFEST_FILE _ (by decide)]
      exact FS.lookupFile_write_self w.fs MANIFEST_FILE _
  have hit : installTable defaultManifest pkg
      = some (Table.insertOrAssign defaultManifest "dependencies"
          (Value.table [(pkg, Value.str "1.0.0")])) := rfl
  refine ⟨hm, rfl, rfl, rfl, rfl, rfl, ?_⟩
  refine ⟨_, install_package_toml (initialize_manifest w) defaultManifest _ pkg hm hit, ?_⟩
  refine ⟨Table.insertOrAssign defaultManifest "dependencies"
            (Value.table [(pkg, Value.str "1.0.0")]),
          FS.lookupFile_write_self _ _ _, ?_⟩
  rw [Table.find_insertOrAssign]
  simp [defaultManifest, Table.find]

/-- Witness for C9 at the empty state with package `foo`. -/
theorem new_roundtrip_witness :
    FS.lookupFile (initialize_manifest wEmpty).fs MANIFEST_FILE
        = some (FileData.toml defaultManifest)
  ∧ parseFileData (FileData.toml defaultManifest) = Except.ok defaultManifest
  ∧ entrypointOf defaultManifest = "main.bolt"
  ∧ outputNameOf defaultManifest = "new-bolt-project"
  ∧ viewStr defaultManifest "package" "version" "" = "0.1.0"
  ∧ buildCmdOf defaultManifest = "bolt-compiler main.bolt -o new-bolt-project"
  ∧ ∃ w2, install_package "foo" (initialize_manifest wEmpty) = some w2
      ∧ ∃ doc2, FS.lookupFile w2.fs MANIFEST_FILE = some (FileData.toml doc2)
        ∧ Table.find doc2 "package" = Table.find defaultManifest "package" :=
  new_roundtrip wEmpty "foo" rfl

/-- Claim C6: on a manifest that exists and parses (with well-formed
dependencies, as any parsed TOML table is), `install foo` yields a manifest
whose dependencies table maps `foo` to `"1.0.0"` in exactly one entry, and
a second `install foo` on the result still leaves exactly one `foo` entry
equal to `"1.0.0"`. -/
theorem install_idempotent (w : World) (doc : Table)
    (h : FS.lookupFile w.fs MANIFEST_FILE = some (FileData.toml doc))
    (hd : Table.find doc "dependencies" = none ∨
          ∃ dl, Table.find doc "dependencies" = some (Value.table dl) ∧
                Table.nodupKeys dl = true) :
    ∃ w1 doc1 deps1, install_package "foo" w = some w1
      ∧ FS.lookupFile w1.fs MANIFEST_FILE = some (FileData.toml doc1)
      ∧ Table.find doc1 "dependencies" = some (Value.table deps1)
      ∧ Table.find deps1 "foo" = some (Value.str "1.0.0")
      ∧ Table.keyCount deps1 "foo" = 1
      ∧ ∃ w2 doc2 deps2, install_package "foo" w1 = some w2
        ∧ FS.lookupFile w2.fs MANIFEST_FILE = some (FileData.toml doc2)
        ∧ Table.find doc2 "dependencies" = some (Value.table deps2)
        ∧ Table.find deps2 "foo" = some (Value.str "1.0.0")
        ∧ Table.keyCount deps2 "foo" = 1 := by
  obtain ⟨tbl2, deps2, hit, hfind, hpkg, hnodup, hcount⟩ := installTable_spec doc "foo" hd
  obtain ⟨tbl3, deps3, hit2, hfind2, hpkg2, hnodup2, hcount2⟩ :=
    installTable_spec tbl2 "foo" (Or.inr ⟨deps2, hfind, hnodup⟩)
  refine ⟨{ w with fs := FS.write w.fs MANIFEST_FILE (FileData.toml tbl2),
                   out := w.out ++ [installedMsg "foo", runBuildHint] }, tbl2, deps2,
          install_package_toml w doc tbl2 "foo" h hit,
          FS.lookupFile_write_self _ _ _, hfind, hpkg, hcount,
          _, tbl3, deps3,
          install_package_toml _ tbl2 tbl3 "foo" (FS.lookupFile_write_self _ _ _) hit2,
          FS.lookupFile_write_self _ _ _, hfind2, hpkg2, hcount2⟩

/-- Witness for C6 on the manifest written by `new`. -/
theorem install_idempotent_witness :
    ∃ w1 doc1 deps1, install_package "foo" wDefault = some w1
      ∧ FS.lookupFile w1.fs MANIFEST_FILE = some (FileData.toml doc1)
      ∧ Table.find doc1 "dependencies" = some (Value.table deps1)
      ∧ Table.find deps1 "foo" = some (Value.str "1.0.0")
      ∧ Table.keyCount deps1 "foo" = 1
      ∧ ∃ w2 doc2 deps2, install_package "foo" w1 = some w2
        ∧ FS.lookupFile w2.fs MANIFEST_FILE = some (FileData.toml doc2)
        ∧ Table.find doc2 "dependencies" = some (Value.table deps2)
        ∧ Table.find deps2 "foo" = some (Value.str "1.0.0")
        ∧ Table.keyCount deps2 "foo" = 1 :=
  install_idempotent wDefault defaultManifest rfl (Or.inr ⟨[], rfl, rfl⟩)

/-- Claim C7: the compiler command built from a manifest whose dependencies
section is a table is the fixed prelude followed by exactly one ` -l<key>`
flag per dependency key — a flag ` -l<name>` occurs among the dependency
flags precisely when `name` is a key of the table — and the command is the
one the `build` run prints. -/
theorem build_dep_flags (w : World) (sys : String → Int) (doc deps : Table)
    (h : FS.lookupFile w.fs MANIFEST_FILE = some (FileData.toml doc))
    (hdeps : Table.find doc "dependencies" = some (Value.table deps)) :
    buildCmdOf doc
      = COMPILER_NAME ++ " " ++ entrypointOf doc ++ " -o " ++ outputNameOf doc
          ++ strJoin (deps.map (fun kv => " -l" ++ kv.1))
  ∧ (∀ name : String,
       (" -l" ++ name) ∈ deps.map (fun kv => " -l" ++ kv.1) ↔ name ∈ Table.keys deps)
  ∧ cmdMsg (buildCmdOf doc) ∈ (build_project sys w).out := by
  refine ⟨?_, ?_, ?_⟩
  · simp only [buildCmdOf, depFlagsOf, hdeps, Option.some_bind, Value.asTable]
    rw [foldl_depFlags, String.empty_append]
  · intro name
    constructor
    · intro hm
      obtain ⟨kv, hkv, heq⟩ := List.mem_map.mp hm
      have : kv.1 = name := str_append_left_cancel " -l" kv.1 name heq
      exact List.mem_map.mpr ⟨kv, hkv, this⟩
    · intro hk
      obtain ⟨kv, hkv, hfst⟩ := List.mem_map.mp hk
      exact List.mem_map.mpr ⟨kv, hkv, by rw [hfst]⟩
  · by_cases hz : sys (buildCmdOf doc) = 0
    · simp [build_project, h, parseFileData, hz]
    · simp [build_project, h, parseFileData, hz]

/-- Witness for C7 on the spec example manifest (`fmt` and `zlib`). -/
theorem build_dep_flags_witness :
    buildCmdOf docEx
      = COMPILER_NAME ++ " " ++ entrypointOf docEx ++ " -o " ++ outputNameOf docEx
          ++ strJoin (depsEx.map (fun kv => " -l" ++ kv.1))
  ∧ ((" -l" ++ "fmt") ∈ depsEx.map (fun kv => " -l" ++ kv.1) ↔ "fmt" ∈ Table.keys depsEx)
  ∧ cmdMsg (buildCmdOf docEx) ∈ (build_project (fun _ => 0) wEx).out := by
  have H := build_dep_flags wEx (fun _ => 0) docEx depsEx rfl rfl
  exact ⟨H.1, H.2.1 "fmt", H.2.2⟩

end BoltPM
